import Mathlib

/-!
Shallow embedding of the lending-pool interaction and diagnostics scripts
(supply / borrow / repay / withdraw orchestration, reserve-configuration
decoding, balance aggregation, health-factor display, address resolution,
error classification) together with proofs about that embedding.

Script values of type `string | undefined` coming from `process.env` are
modelled as `Option String`; JavaScript truthiness of such values (falsy
exactly on `undefined` and the empty string) is made explicit.  On-chain
unsigned 256-bit quantities handled through ethers `BigNumber` are modelled
as `Nat` (ethers BigNumbers are arbitrary precision; the scripts perform no
overflowing arithmetic).  Each script's `main` is modelled as a function
from its environment and an oracle for the chain state to the list of
transactions it submits plus its outcome (normal return or thrown error).
-/

/-- JavaScript `a || b` on `string | undefined` values: `a` wins unless it
is `undefined` or the empty string. -/
def jsOr (a b : Option String) : Option String :=
  match a with
  | some s => if s = "" then b else some s
  | none => b

/-- JavaScript `a || d` where `d` is a plain (non-optional) string default. -/
def jsOrDefault (a : Option String) (d : String) : String :=
  match a with
  | some s => if s = "" then d else s
  | none => d

/-- JavaScript truthiness of a `string | undefined` value. -/
def truthy (a : Option String) : Bool :=
  match a with
  | some s => s ≠ ""
  | none => false

/-- Accumulating decimal-digit parser over a character list. -/
def decDigitsVal (acc : Nat) : List Char → Option Nat
  | [] => some acc
  | c :: cs => if c.isDigit then decDigitsVal (acc * 10 + (c.toNat - 48)) cs else none

/-- Parse a non-empty all-digit decimal string. -/
def parseDecNat (s : String) : Option Nat :=
  match s.data with
  | [] => none
  | l => decDigitsVal 0 l

/-- `parseInt` as used on the numeric environment variables of these
scripts (whole decimal strings). -/
def parseIntNat (s : String) : Nat := (parseDecNat s).getD 0

/-- ethers `parseUnits(s, decimals)` for the whole-number decimal strings
these scripts pass to it. -/
def parseUnitsNat (s : String) (decimals : Nat) : Nat :=
  ((parseDecNat s).getD 0) * 10 ^ decimals

/-- `ethers.constants.MaxUint256`. -/
def maxUint256 : Nat := 2 ^ 256 - 1

/-- `ethers.constants.AddressZero`. -/
def zeroAddress : String := "0x0000000000000000000000000000000000000000"

/-! ## Reserve-configuration decoder

`check-pool-config.ts` lines 69-76 and `list-pool-reserves.ts` lines 95-100
decode the packed configuration word with
`configData.shr(56).and(1).eq(1)` and `configData.shr(57).and(1).eq(1)`. -/

/-- Decoded view of a reserve configuration word, as produced at the two
decode sites of the scripts. -/
structure DecodedReserveStatus where
  isActive : Bool
  isFrozen : Bool
  deriving Repr, DecidableEq

/-- The reserve-configuration decoder: `shr`/`and`/`eq` on an ethers
BigNumber become shift / bitwise-and / equality on `Nat`. -/
def decodeReserveConfig (word : Nat) : DecodedReserveStatus :=
  { isActive := (word >>> 56) &&& 1 == 1
    isFrozen := (word >>> 57) &&& 1 == 1 }

/-! ## Environment and address resolution

All six scripts read the same environment surface.  The four operation
scripts (`supply-to-pool-configurable.ts`, `borrow-from-pool-configurable.ts`
and the repay / withdraw scripts) contain a verbatim-identical `loadConfig`
address-resolution block (differing only in the amount variable they read);
it is embedded once below and specialised per script. -/

/-- The environment variables these scripts consult (`process.env`). -/
structure Env where
  NETWORK : Option String
  LOCAL_TOKEN_ADDRESS : Option String
  SEPOLIA_TOKEN_ADDRESS : Option String
  TOKEN_ADDRESS : Option String
  LOCAL_LENDING_POOL_ADDRESS : Option String
  SEPOLIA_LENDING_POOL_ADDRESS : Option String
  LENDING_POOL_ADDRESS : Option String
  LOCAL_DATA_PROVIDER_ADDRESS : Option String
  SEPOLIA_DATA_PROVIDER_ADDRESS : Option String
  DATA_PROVIDER_ADDRESS : Option String
  TOKEN_NAME : Option String
  TOKEN_DECIMALS : Option String
  TOKEN_SUPPLY_AMOUNT : Option String
  TOKEN_BORROW_AMOUNT : Option String
  TOKEN_REPAY_AMOUNT : Option String
  TOKEN_WITHDRAW_AMOUNT : Option String
  INTEREST_RATE_MODE : Option String
  TIME_DELAY : Option String
  deriving Repr, DecidableEq

/-- `isLocalNetwork()` as defined identically in every script:
`const network = process.env.NETWORK || 'hardhat'` followed by
`network === 'hardhat' || network === 'localhost'`. -/
def isLocalNetwork (env : Env) : Bool :=
  let network := jsOrDefault env.NETWORK "hardhat"
  network == "hardhat" || network == "localhost"

/-- The network name as computed at the top of `loadConfig` (and of the
diagnostic scripts): `process.env.NETWORK || 'localhost'`. -/
def loadConfigNetwork (env : Env) : String :=
  jsOrDefault env.NETWORK "localhost"

/-- `loadConfig`'s own local flag:
`network === 'hardhat' || network === 'localhost'` over `loadConfigNetwork`. -/
def loadConfigIsLocal (env : Env) : Bool :=
  loadConfigNetwork env == "hardhat" || loadConfigNetwork env == "localhost"

/-- One role's address selection:
`isLocal ? (LOCAL_X || X) : (SEPOLIA_X || X)`. -/
def resolveRole (isLocal : Bool) (localVar sepoliaVar genericVar : Option String) :
    Option String :=
  if isLocal then jsOr localVar genericVar else jsOr sepoliaVar genericVar

/-- Token-address selection in `loadConfig` (and the diagnostic scripts). -/
def resolveTokenAddress (env : Env) : Option String :=
  resolveRole (loadConfigIsLocal env)
    env.LOCAL_TOKEN_ADDRESS env.SEPOLIA_TOKEN_ADDRESS env.TOKEN_ADDRESS

/-- Lending-pool-address selection in `loadConfig`. -/
def resolveLendingPoolAddress (env : Env) : Option String :=
  resolveRole (loadConfigIsLocal env)
    env.LOCAL_LENDING_POOL_ADDRESS env.SEPOLIA_LENDING_POOL_ADDRESS
    env.LENDING_POOL_ADDRESS

/-- Data-provider-address selection in `loadConfig`. -/
def resolveDataProviderAddress (env : Env) : Option String :=
  resolveRole (loadConfigIsLocal env)
    env.LOCAL_DATA_PROVIDER_ADDRESS env.SEPOLIA_DATA_PROVIDER_ADDRESS
    env.DATA_PROVIDER_ADDRESS

/-- The message of the error thrown by `loadConfig` for a missing required
variable: `Missing required environment variable: ${pfx}${name} (or
fallback ${name})` — it interpolates both the network-prefixed and the
generic variable name. -/
def mkMissingMsg (pfx name : String) : String :=
  "Missing required environment variable: " ++ pfx ++ name ++
    " (or fallback " ++ name ++ ")"

/-- The fields shared by the four operation scripts' `Config` records,
as assembled by their common `loadConfig` body. -/
structure CommonConfig where
  network : String
  lendingPoolAddress : String
  dataProviderAddress : String
  tokenName : String
  tokenAddress : String
  tokenDecimals : Nat
  timeDelay : Nat
  deriving Repr, DecidableEq

/-- The verbatim-shared part of `loadConfig`: address resolution, the
required-variable loop over `LENDING_POOL_ADDRESS` then `TOKEN_ADDRESS`
(throwing on the first falsy value), and the defaulted metadata fields.
The data-provider address is `dataProviderAddress || ''`: it never fails. -/
def loadConfigCommon (env : Env) : Except String CommonConfig :=
  let isLocal := loadConfigIsLocal env
  let tokenAddress := resolveTokenAddress env
  let lendingPoolAddress := resolveLendingPoolAddress env
  let dataProviderAddress := resolveDataProviderAddress env
  let pfx := if isLocal then "LOCAL_" else "SEPOLIA_"
  if !truthy lendingPoolAddress then
    .error (mkMissingMsg pfx "LENDING_POOL_ADDRESS")
  else if !truthy tokenAddress then
    .error (mkMissingMsg pfx "TOKEN_ADDRESS")
  else
    .ok
      { network := loadConfigNetwork env
        lendingPoolAddress := lendingPoolAddress.getD ""
        dataProviderAddress := jsOrDefault dataProviderAddress ""
        tokenName := jsOrDefault env.TOKEN_NAME "TOKEN"
        tokenAddress := tokenAddress.getD ""
        tokenDecimals := parseIntNat (jsOrDefault env.TOKEN_DECIMALS "18")
        timeDelay := parseIntNat (jsOrDefault env.TIME_DELAY "86400") }

/-- Supply script config: adds `supplyAmount (TOKEN_SUPPLY_AMOUNT || '100')`. -/
structure SupplyConfig extends CommonConfig where
  supplyAmount : String
  deriving Repr, DecidableEq

/-- `loadConfig` of `supply-to-pool-configurable.ts`. -/
def loadConfigSupply (env : Env) : Except String SupplyConfig :=
  (loadConfigCommon env).map fun c =>
    { c with supplyAmount := jsOrDefault env.TOKEN_SUPPLY_AMOUNT "100" }

/-- Borrow script config: adds `borrowAmount (TOKEN_BORROW_AMOUNT || '100')`
and `interestRateMode (parseInt(INTEREST_RATE_MODE || '2'))`. -/
structure BorrowConfig extends CommonConfig where
  borrowAmount : String
  interestRateMode : Nat
  deriving Repr, DecidableEq

/-- `loadConfig` of `borrow-from-pool-configurable.ts`. -/
def loadConfigBorrow (env : Env) : Except String BorrowConfig :=
  (loadConfigCommon env).map fun c =>
    { c with
      borrowAmount := jsOrDefault env.TOKEN_BORROW_AMOUNT "100"
      interestRateMode := parseIntNat (jsOrDefault env.INTEREST_RATE_MODE "2") }

/-- Repay script config: adds `repayAmount (TOKEN_REPAY_AMOUNT || '0';
0 = repay all)` and `interestRateMode`. -/
structure RepayConfig extends CommonConfig where
  repayAmount : String
  interestRateMode : Nat
  deriving Repr, DecidableEq

/-- `loadConfig` of the repay script. -/
def loadConfigRepay (env : Env) : Except String RepayConfig :=
  (loadConfigCommon env).map fun c =>
    { c with
      repayAmount := jsOrDefault env.TOKEN_REPAY_AMOUNT "0"
      interestRateMode := parseIntNat (jsOrDefault env.INTEREST_RATE_MODE "2") }

/-- Withdraw script config: adds `withdrawAmount (TOKEN_WITHDRAW_AMOUNT ||
'0'; 0 = withdraw all)`. -/
structure WithdrawConfig extends CommonConfig where
  withdrawAmount : String
  deriving Repr, DecidableEq

/-- `loadConfig` of the withdraw script. -/
def loadConfigWithdraw (env : Env) : Except String WithdrawConfig :=
  (loadConfigCommon env).map fun c =>
    { c with withdrawAmount := jsOrDefault env.TOKEN_WITHDRAW_AMOUNT "0" }

/-! ## Script execution model

Each script `main` is modelled as a function from the environment and a
chain oracle to a `ScriptResult`: the list of transactions it submitted (in
order) and whether it returned normally or threw.  Network calls that can
fail and whose failure the script handles (or does not) are oracle fields
of type `Except String Unit`; plain reads are oracle data. -/

/-- A transaction submitted to the network by a script. -/
inductive Tx where
  | approve (amount : Nat)
  | deposit (amount : Nat)
  | borrow (amount : Nat) (rateMode : Nat)
  | repay (amount : Nat) (rateMode : Nat)
  | withdraw (amount : Nat)
  deriving Repr, DecidableEq

/-- Outcome of a script `main`: normal completion or a thrown error, in
both cases with the transactions submitted up to that point. -/
inductive ScriptResult where
  | ok (txs : List Tx)
  | thrown (msg : String) (txs : List Tx)
  deriving Repr, DecidableEq

/-- The transactions a script run submitted. -/
def txsOf : ScriptResult → List Tx
  | .ok txs => txs
  | .thrown _ txs => txs

/-- The network-aware signer-selection block shared by the operation
scripts: on a local network fewer than 2 accounts throws, on a live
network zero accounts throws; otherwise it proceeds. -/
def signersGate (isLocal : Bool) (signersCount : Nat) : Option String :=
  if isLocal then
    if signersCount < 2 then
      some "❌ Local network needs at least 2 accounts (deployer + user)"
    else none
  else
    if signersCount = 0 then
      some "❌ No accounts configured! Check your .env file and hardhat.config.ts"
    else none

/-- Repay amount resolution (repay script lines 206-214):
`'0'` or `''` becomes `MaxUint256` (repay all), anything else is parsed
with `parseUnits`. -/
def resolveRepayAmount (repayAmount : String) (decimals : Nat) : Nat :=
  if repayAmount = "0" ∨ repayAmount = "" then maxUint256
  else parseUnitsNat repayAmount decimals

/-- Withdraw amount resolution (withdraw script lines 605-613): same
convention as repay. -/
def resolveWithdrawAmount (withdrawAmount : String) (decimals : Nat) : Nat :=
  if withdrawAmount = "0" ∨ withdrawAmount = "" then maxUint256
  else parseUnitsNat withdrawAmount decimals

/-- Chain oracle for the supply script.  `configWord` is the reserve's
packed configuration word; the supply script never reads it (it performs
no reserve-status validation), which the C3 theorems make explicit. -/
structure SupplyChain where
  signersCount : Nat
  userBalance : Nat
  configWord : Nat
  approveResult : Except String Unit
  depositResult : Except String Unit
  deriving Repr

/-- `main` of `supply-to-pool-configurable.ts`: load config, select signer,
read the wallet balance, and if it covers the supply amount submit
`approve` then `deposit` (both unguarded: a failed wait throws); with an
insufficient balance it only prints and completes.  The final summary
section performs reads only. -/
def supplyMain (env : Env) (chain : SupplyChain) : ScriptResult :=
  match loadConfigSupply env with
  | .error msg => .thrown msg []
  | .ok config =>
    match signersGate (isLocalNetwork env) chain.signersCount with
    | some msg => .thrown msg []
    | none =>
      let supplyAmountWei := parseUnitsNat config.supplyAmount config.tokenDecimals
      if chain.userBalance ≥ supplyAmountWei then
        match chain.approveResult with
        | .error e => .thrown e [.approve supplyAmountWei]
        | .ok _ =>
          match chain.depositResult with
          | .error e => .thrown e [.approve supplyAmountWei, .deposit supplyAmountWei]
          | .ok _ => .ok [.approve supplyAmountWei, .deposit supplyAmountWei]
      else
        .ok []

/-- Chain oracle for the borrow script. -/
structure BorrowChain where
  signersCount : Nat
  walletBalance : Nat
  totalCollateralETH : Nat
  availableBorrowsETH : Nat
  accountReadOk : Bool
  borrowResult : Except String Unit
  deriving Repr

/-- `main` of `borrow-from-pool-configurable.ts`: after config and signer
selection, when a data provider is configured it reads the account data
(inside `try`: a failed read only warns) and returns early on zero
collateral or zero available borrows; then it submits `borrow`, whose
failure is caught, classified by substring and followed by `return`. -/
def borrowMain (env : Env) (chain : BorrowChain) : ScriptResult :=
  match loadConfigBorrow env with
  | .error msg => .thrown msg []
  | .ok config =>
    match signersGate (isLocalNetwork env) chain.signersCount with
    | some msg => .thrown msg []
    | none =>
      let earlyReturn :=
        config.dataProviderAddress ≠ "" && chain.accountReadOk &&
          (chain.totalCollateralETH == 0 || chain.availableBorrowsETH == 0)
      if earlyReturn then .ok []
      else
        let borrowAmountWei := parseUnitsNat config.borrowAmount config.tokenDecimals
        match chain.borrowResult with
        | .error _ => .ok [.borrow borrowAmountWei config.interestRateMode]
        | .ok _ => .ok [.borrow borrowAmountWei config.interestRateMode]

/-- Chain oracle for the repay script.  `userReserveReadOk` is whether
`dataProvider.getUserReserveData` succeeds; that call sits in a `try`
whose `catch` only warns and continues. -/
structure RepayChain where
  signersCount : Nat
  walletBalance : Nat
  currentStableDebt : Nat
  currentVariableDebt : Nat
  userReserveReadOk : Bool
  approveResult : Except String Unit
  repayResult : Except String Unit
  deriving Repr

/-- `main` of the repay script: after config and signer selection, when a
data provider is configured and the user-reserve read succeeds it returns
early on zero total debt, or on zero debt in the selected rate mode; a
failed read only warns and the script proceeds.  It then resolves the
amount (0/'' ⇒ `MaxUint256`) and submits `approve` then `repay` inside a
`try` whose `catch` prints, classifies and returns normally. -/
def repayMain (env : Env) (chain : RepayChain) : ScriptResult :=
  match loadConfigRepay env with
  | .error msg => .thrown msg []
  | .ok config =>
    match signersGate (isLocalNetwork env) chain.signersCount with
    | some msg => .thrown msg []
    | none =>
      let totalDebt := chain.currentStableDebt + chain.currentVariableDebt
      let targetDebt :=
        if config.interestRateMode = 1 then chain.currentStableDebt
        else chain.currentVariableDebt
      if config.dataProviderAddress ≠ "" ∧ chain.userReserveReadOk = true ∧
          (totalDebt = 0 ∨ targetDebt = 0) then
        .ok []
      else
        let repayAmountWei := resolveRepayAmount config.repayAmount config.tokenDecimals
        match chain.approveResult with
        | .error _ => .ok [.approve repayAmountWei]
        | .ok _ =>
          match chain.repayResult with
          | .error _ => .ok [.approve repayAmountWei,
              .repay repayAmountWei config.interestRateMode]
          | .ok _ => .ok [.approve repayAmountWei,
              .repay repayAmountWei config.interestRateMode]

/-- Chain oracle for the withdraw script. -/
structure WithdrawChain where
  signersCount : Nat
  walletBalance : Nat
  aTokenBalance : Nat
  withdrawResult : Except String Unit
  deriving Repr

/-- `main` of the withdraw script: after config and signer selection it
reads the aToken balance and returns early when it is zero; otherwise it
resolves the amount (0/'' ⇒ `MaxUint256`) and submits `withdraw` inside a
`try` whose `catch` prints, classifies and returns normally. -/
def withdrawMain (env : Env) (chain : WithdrawChain) : ScriptResult :=
  match loadConfigWithdraw env with
  | .error msg => .thrown msg []
  | .ok config =>
    match signersGate (isLocalNetwork env) chain.signersCount with
    | some msg => .thrown msg []
    | none =>
      if chain.aTokenBalance = 0 then .ok []
      else
        let withdrawAmountWei :=
          resolveWithdrawAmount config.withdrawAmount config.tokenDecimals
        match chain.withdrawResult with
        | .error _ => .ok [.withdraw withdrawAmountWei]
        | .ok _ => .ok [.withdraw withdrawAmountWei]

/-- The process-level runner shared by the orchestration and diagnostic
scripts: `main().then(() => process.exit(0)).catch(error =>
{ console.error('\n❌ Error:', error.message); process.exit(1) })`. -/
structure ProcessExit where
  exitCode : Nat
  errorOutput : List String
  deriving Repr, DecidableEq

/-- Maps a script outcome to the process exit: normal completion exits 0;
a thrown error is printed by the top-level `catch` and the process exits 1. -/
def runScript (r : ScriptResult) : ProcessExit :=
  match r with
  | .ok _ => { exitCode := 0, errorOutput := [] }
  | .thrown msg _ => { exitCode := 1, errorOutput := ["\n❌ Error: " ++ msg] }

/-! ## Health-factor display -/

/-- The infinite-display threshold: `ethers.utils.parseUnits('1000000', 18)`. -/
def hfInfiniteThreshold : Nat := 1000000 * 10 ^ 18

/-- What a health-factor display line shows. -/
inductive HFDisplay where
  | infinite
  | numeric (hf : Nat)
  deriving Repr, DecidableEq

/-- The health-factor display used at every `hfBefore` / `hfAfter` site
(repay script lines 196-201 and 326-331, withdraw script lines 595-600 and
715-720): `hf.gt(parseUnits('1000000', 18))` prints `∞ (No debt)`,
otherwise the numeric value. -/
def formatHealthFactor (hf : Nat) : HFDisplay :=
  if hf > hfInfiniteThreshold then .infinite else .numeric hf

/-- The after-repayment health report (repay script lines 326-345): the
health-factor line applies `formatHealthFactor` to the raw value, and the
"All debt repaid! Health Factor: ∞" banner of the improvement section
prints exactly when `totalDebtETH.eq(0)`. -/
def repayAfterHealthReport (totalDebtAfter hfAfter : Nat) : HFDisplay × Bool :=
  (formatHealthFactor hfAfter, totalDebtAfter == 0)

/-! ## Balance aggregation (`check-balance.ts` lines 157-177) -/

/-- The slice of `getReserveData` the aggregator uses. -/
structure ReserveDataView where
  aTokenAddress : String
  deriving Repr, DecidableEq

/-- A per-reserve balance row as printed by `check-balance.ts`. -/
structure TokenBalance where
  wallet : Nat
  deposited : Nat
  total : Nat
  deriving Repr, DecidableEq

/-- The aggregator body for one reserve: `aTokenBalance` starts at 0 and is
assigned inside a `try` only when `getReserveData` succeeds, the aToken
address is not the zero address, and the `balanceOf` read succeeds (any
failure is caught and ignored, leaving 0); then
`totalBalance = walletBalance.add(aTokenBalance)`. -/
def aggregateReserveBalance (walletBalance : Nat)
    (reserveRead : Except String ReserveDataView)
    (aTokenRead : Except String Nat) : TokenBalance :=
  let aTokenBalance :=
    match reserveRead with
    | .ok rd =>
      if rd.aTokenAddress ≠ zeroAddress then
        match aTokenRead with
        | .ok bal => bal
        | .error _ => 0
      else 0
    | .error _ => 0
  { wallet := walletBalance
    deposited := aTokenBalance
    total := walletBalance + aTokenBalance }

/-! ## Reserve-status verdict (`check-pool-config.ts` lines 78-101) -/

/-- The verdict the configuration checker prints about one reserve. -/
inductive ConfigVerdict where
  | notInitialized
  | reserveInactive
  | reserveFrozen
  | configuredOkButPaused
  | configuredOk
  deriving Repr, DecidableEq

/-- The verdict chain of `check-pool-config.ts`: zero aToken address ⇒ not
initialized in this pool; else `!isActive` ⇒ reserve not active; else
`isFrozen` ⇒ reserve frozen; else configured correctly, with a pool-paused
warning when `paused()` returned true. -/
def checkReserveVerdict (aTokenAddress : String) (word : Nat) (isPoolPaused : Bool) :
    ConfigVerdict :=
  let status := decodeReserveConfig word
  if aTokenAddress = zeroAddress then .notInitialized
  else if !status.isActive then .reserveInactive
  else if status.isFrozen then .reserveFrozen
  else if isPoolPaused then .configuredOkButPaused
  else .configuredOk

/-! ## Error classification

The three operation scripts classify a failed submission by testing
`error.message.includes(code)` against a fixed per-operation list of known
protocol error codes, in source order, printing a hint for the first match;
a message matching no entry gets no hint.  In every case the raw message
has already been printed (`console.log('Error:', error.message)`). -/

/-- Boolean prefix test on character lists. -/
def charsPrefixOf : List Char → List Char → Bool
  | [], _ => true
  | _ :: _, [] => false
  | a :: as, b :: bs => a == b && charsPrefixOf as bs

/-- Boolean infix (contiguous-substring) test on character lists. -/
def charsInfixOf (p : List Char) : List Char → Bool
  | [] => charsPrefixOf p []
  | b :: bs => charsPrefixOf p (b :: bs) || charsInfixOf p bs

/-- JavaScript `s.includes(pat)`. -/
def strContains (s pat : String) : Bool :=
  charsInfixOf pat.data s.data

/-- The closed set of error kinds the scripts distinguish, one per printed
hint, plus `unrecognized` for a message matching no table entry. -/
inductive ErrorKind where
  | invalidCollateral
  | invalidAmount
  | collateralCannotCover
  | paused
  | noMatchingDebt
  | amountExceedsDebt
  | noVariableDebt
  | notEnoughATokens
  | healthFactorTooLow
  | notEnoughLiquidity
  | unrecognized
  deriving Repr, DecidableEq

/-- The borrow script's hint table (lines 206-214): codes '1', '3', '11',
'64' in source order. -/
def borrowErrorTable : List (String × ErrorKind) :=
  [("1", .invalidCollateral), ("3", .invalidAmount),
   ("11", .collateralCannotCover), ("64", .paused)]

/-- The repay script's hint table (lines 261-267): codes '5', '14', '15'. -/
def repayErrorTable : List (String × ErrorKind) :=
  [("5", .noMatchingDebt), ("14", .amountExceedsDebt), ("15", .noVariableDebt)]

/-- The withdraw script's hint table (lines 649-656): codes '32', '35', '33'. -/
def withdrawErrorTable : List (String × ErrorKind) :=
  [("32", .notEnoughATokens), ("35", .healthFactorTooLow),
   ("33", .notEnoughLiquidity)]

/-- First-match classification of a raw message against a table. -/
def classifyAgainst (table : List (String × ErrorKind)) (msg : String) : ErrorKind :=
  match table with
  | [] => .unrecognized
  | (code, kind) :: rest =>
    if strContains msg code then kind else classifyAgainst rest msg

/-- The borrow script's `catch` block as written: nested
`if/else if` on `error.message.includes(...)`. -/
def classifyBorrowError (msg : String) : ErrorKind :=
  if strContains msg "1" then .invalidCollateral
  else if strContains msg "3" then .invalidAmount
  else if strContains msg "11" then .collateralCannotCover
  else if strContains msg "64" then .paused
  else .unrecognized

/-- The repay script's `catch` block as written. -/
def classifyRepayError (msg : String) : ErrorKind :=
  if strContains msg "5" then .noMatchingDebt
  else if strContains msg "14" then .amountExceedsDebt
  else if strContains msg "15" then .noVariableDebt
  else .unrecognized

/-- The withdraw script's `catch` block as written. -/
def classifyWithdrawError (msg : String) : ErrorKind :=
  if strContains msg "32" then .notEnoughATokens
  else if strContains msg "35" then .healthFactorTooLow
  else if strContains msg "33" then .notEnoughLiquidity
  else .unrecognized

/-- The hint line printed for a classified kind, when one matched. -/
def hintLine : ErrorKind → List String
  | .invalidCollateral => ["💡 Error code 1: Invalid reserve used as collateral"]
  | .invalidAmount => ["💡 Error code 3: Invalid amount (0 or exceeds max)"]
  | .collateralCannotCover => ["💡 Error code 11: Collateral cannot cover new borrow"]
  | .paused => ["💡 Error code 64: Pool is paused"]
  | .noMatchingDebt => ["💡 Error code 5: No debt of matching type"]
  | .amountExceedsDebt => ["💡 Error code 14: Amount exceeds debt"]
  | .noVariableDebt => ["💡 Error code 15: No variable rate debt"]
  | .notEnoughATokens => ["💡 Error code 32: Not enough aTokens"]
  | .healthFactorTooLow =>
    ["💡 Error code 35: Health factor would drop below 1.0 (liquidation threshold)",
     "   You must repay debt first or withdraw less!"]
  | .notEnoughLiquidity => ["💡 Error code 33: Not enough liquidity in the pool"]
  | .unrecognized => []

/-- The borrow `catch` block's full printed output: the failure banner, the
raw message, then the hint (if any) — the raw message is always surfaced. -/
def borrowFailureOutput (msg : String) : List String :=
  ["❌ Borrow failed!", "Error: " ++ msg] ++ hintLine (classifyBorrowError msg)

/-- The repay `catch` block's full printed output. -/
def repayFailureOutput (msg : String) : List String :=
  ["❌ Repayment failed!", "Error: " ++ msg] ++ hintLine (classifyRepayError msg)

/-- The withdraw `catch` block's full printed output. -/
def withdrawFailureOutput (msg : String) : List String :=
  ["❌ Withdrawal failed!", "Error: " ++ msg] ++ hintLine (classifyWithdrawError msg)

/-! ## Concrete environments and oracles used in counterexamples and witnesses -/

/-- An environment with every variable unset. -/
def emptyEnv : Env :=
  { NETWORK := none, LOCAL_TOKEN_ADDRESS := none, SEPOLIA_TOKEN_ADDRESS := none,
    TOKEN_ADDRESS := none, LOCAL_LENDING_POOL_ADDRESS := none,
    SEPOLIA_LENDING_POOL_ADDRESS := none, LENDING_POOL_ADDRESS := none,
    LOCAL_DATA_PROVIDER_ADDRESS := none, SEPOLIA_DATA_PROVIDER_ADDRESS := none,
    DATA_PROVIDER_ADDRESS := none, TOKEN_NAME := none, TOKEN_DECIMALS := none,
    TOKEN_SUPPLY_AMOUNT := none, TOKEN_BORROW_AMOUNT := none,
    TOKEN_REPAY_AMOUNT := none, TOKEN_WITHDRAW_AMOUNT := none,
    INTEREST_RATE_MODE := none, TIME_DELAY := none }

/-- Local-network environment requesting a supply of 0 tokens. -/
def envSupplyZero : Env :=
  { emptyEnv with
    NETWORK := some "localhost",
    LENDING_POOL_ADDRESS := some "0xPool", TOKEN_ADDRESS := some "0xToken",
    TOKEN_SUPPLY_AMOUNT := some "0" }

/-- A chain on which both supply transactions settle. -/
def chainSupplyZero : SupplyChain :=
  { signersCount := 2, userBalance := 0, configWord := 0,
    approveResult := .ok (), depositResult := .ok () }

/-- The config `loadConfig` produces for `envSupplyZero`. -/
def cfgSupplyZero : SupplyConfig :=
  { network := "localhost", lendingPoolAddress := "0xPool",
    dataProviderAddress := "", tokenName := "TOKEN", tokenAddress := "0xToken",
    tokenDecimals := 18, timeDelay := 86400, supplyAmount := "0" }

/-- Local-network environment requesting a borrow of 0 tokens. -/
def envBorrowZero : Env :=
  { emptyEnv with
    NETWORK := some "localhost",
    LENDING_POOL_ADDRESS := some "0xPool", TOKEN_ADDRESS := some "0xToken",
    TOKEN_BORROW_AMOUNT := some "0" }

/-- A chain on which the borrow settles (no data provider is configured,
so the collateral pre-checks are skipped). -/
def chainBorrowZero : BorrowChain :=
  { signersCount := 2, walletBalance := 0, totalCollateralETH := 0,
    availableBorrowsETH := 0, accountReadOk := true, borrowResult := .ok () }

/-- The config `loadConfig` produces for `envBorrowZero`. -/
def cfgBorrowZero : BorrowConfig :=
  { network := "localhost", lendingPoolAddress := "0xPool",
    dataProviderAddress := "", tokenName := "TOKEN", tokenAddress := "0xToken",
    tokenDecimals := 18, timeDelay := 86400, borrowAmount := "0",
    interestRateMode := 2 }

/-- Local-network environment for a default supply of 100 tokens. -/
def envSupply100 : Env :=
  { emptyEnv with
    NETWORK := some "localhost",
    LENDING_POOL_ADDRESS := some "0xPool", TOKEN_ADDRESS := some "0xToken" }

/-- A chain whose reserve-configuration word is 0 (bits 56 and 57 clear:
inactive, not frozen) and whose balance covers the default supply. -/
def chainInactiveReserve : SupplyChain :=
  { signersCount := 2, userBalance := 100 * 10 ^ 18, configWord := 0,
    approveResult := .ok (), depositResult := .ok () }

/-- The config `loadConfig` produces for `envSupply100`. -/
def cfgSupply100 : SupplyConfig :=
  { network := "localhost", lendingPoolAddress := "0xPool",
    dataProviderAddress := "", tokenName := "TOKEN", tokenAddress := "0xToken",
    tokenDecimals := 18, timeDelay := 86400, supplyAmount := "100" }

/-- Live-network environment with pool and token resolvable but all three
data-provider variables unset. -/
def envNoDataProvider : Env :=
  { emptyEnv with
    NETWORK := some "sepolia",
    SEPOLIA_LENDING_POOL_ADDRESS := some "0xPool", TOKEN_ADDRESS := some "0xToken" }

/-- The config `loadConfig` produces for `envNoDataProvider`: the
data-provider role resolves to the empty string without any failure. -/
def cfgNoDataProvider : CommonConfig :=
  { network := "sepolia", lendingPoolAddress := "0xPool",
    dataProviderAddress := "", tokenName := "TOKEN", tokenAddress := "0xToken",
    tokenDecimals := 18, timeDelay := 86400 }

/-- Live-network environment in which no lending-pool variable is set. -/
def envMissingPool : Env :=
  { emptyEnv with NETWORK := some "sepolia", TOKEN_ADDRESS := some "0xToken" }

/-- A chain for a run of the supply script (used with failing config). -/
def chainPlainSupply : SupplyChain :=
  { signersCount := 2, userBalance := 0, configWord := 0,
    approveResult := .ok (), depositResult := .ok () }

/-- Environment with `NETWORK` set to the empty string. -/
def envEmptyNetwork : Env := { emptyEnv with NETWORK := some "" }

/-- Local-network repay environment with a data provider configured. -/
def envRepayDP : Env :=
  { emptyEnv with
    NETWORK := some "localhost",
    LENDING_POOL_ADDRESS := some "0xPool", TOKEN_ADDRESS := some "0xToken",
    DATA_PROVIDER_ADDRESS := some "0xDP" }

/-- The config `loadConfig` produces for `envRepayDP`. -/
def cfgRepayDP : RepayConfig :=
  { network := "localhost", lendingPoolAddress := "0xPool",
    dataProviderAddress := "0xDP", tokenName := "TOKEN", tokenAddress := "0xToken",
    tokenDecimals := 18, timeDelay := 86400, repayAmount := "0",
    interestRateMode := 2 }

/-- A chain with zero stable and variable debt on which the user-reserve
read fails (the repay script catches the failure and proceeds). -/
def chainZeroDebtReadFails : RepayChain :=
  { signersCount := 2, walletBalance := 0, currentStableDebt := 0,
    currentVariableDebt := 0, userReserveReadOk := false,
    approveResult := .ok (), repayResult := .ok () }

/-- The same zero-debt chain with the user-reserve read succeeding. -/
def chainZeroDebtReadOk : RepayChain :=
  { chainZeroDebtReadFails with userReserveReadOk := true }

/-- A withdraw-script chain with nothing deposited. -/
def chainNoDeposit : WithdrawChain :=
  { signersCount := 2, walletBalance := 0, aTokenBalance := 0,
    withdrawResult := .ok () }

/-! ## Theorems -/

/-- C1: the decoder returns `isActive` equal to bit 56 of the word and
`isFrozen` equal to bit 57, i.e. `((word >> 56) & 1) == 1` and
`((word >> 57) & 1) == 1`; being a total function on `Nat` it is defined
for every input word. -/
theorem c1_decode_bits (word : Nat) :
    ((decodeReserveConfig word).isActive = true ↔ word / 2 ^ 56 % 2 = 1) ∧
    ((decodeReserveConfig word).isFrozen = true ↔ word / 2 ^ 57 % 2 = 1) := by
  simp [decodeReserveConfig, Nat.shiftRight_eq_div_pow, Nat.and_one_is_mod]

/-- C4 counterexample: a health factor exactly equal to the
infinite-display threshold is at-or-above the threshold yet is rendered
numerically, not as infinite — the display uses a strict `gt`. -/
theorem c4_threshold_counterexample :
    hfInfiniteThreshold ≥ hfInfiniteThreshold ∧
      formatHealthFactor hfInfiniteThreshold ≠ HFDisplay.infinite := by
  refine ⟨le_refl _, ?_⟩
  simp [formatHealthFactor]

/-- C4 (amended): a health factor strictly above the infinite-display
threshold renders as infinite, and the post-repayment improvement report
prints the infinite/debt-cleared state whenever `totalDebt = 0`,
regardless of the raw health-factor value. -/
theorem c4_hf_display (hf totalDebtAfter : Nat) :
    (hfInfiniteThreshold < hf → formatHealthFactor hf = HFDisplay.infinite) ∧
    (totalDebtAfter = 0 → (repayAfterHealthReport totalDebtAfter hf).2 = true) := by
  constructor
  · intro h
    simp [formatHealthFactor, h]
  · intro h
    simp [repayAfterHealthReport, h]

/-- C4 witness: both amended conclusions at threshold + 1 and zero debt. -/
theorem c4_hf_display_witness :
    formatHealthFactor (hfInfiniteThreshold + 1) = HFDisplay.infinite ∧
      (repayAfterHealthReport 0 (hfInfiniteThreshold + 1)).2 = true :=
  ⟨(c4_hf_display (hfInfiniteThreshold + 1) 0).1 (Nat.lt_succ_self _),
   (c4_hf_display (hfInfiniteThreshold + 1) 0).2 rfl⟩

/-- C8: every `TokenBalance` the aggregator produces satisfies
`total = wallet + deposited` exactly, and `deposited` is 0 whenever the
reserve read failed, the aToken address is the zero-address sentinel, or
the aToken balance read failed. -/
theorem c8_balance_invariant (walletBalance : Nat)
    (reserveRead : Except String ReserveDataView) (aTokenRead : Except String Nat) :
    (aggregateReserveBalance walletBalance reserveRead aTokenRead).total =
      (aggregateReserveBalance walletBalance reserveRead aTokenRead).wallet +
        (aggregateReserveBalance walletBalance reserveRead aTokenRead).deposited ∧
    (∀ rd, reserveRead = .ok rd → rd.aTokenAddress = zeroAddress →
      (aggregateReserveBalance walletBalance reserveRead aTokenRead).deposited = 0) ∧
    (∀ e, reserveRead = .error e →
      (aggregateReserveBalance walletBalance reserveRead aTokenRead).deposited = 0) ∧
    (∀ e, aTokenRead = .error e →
      (aggregateReserveBalance walletBalance reserveRead aTokenRead).deposited = 0) := by
  refine ⟨?_, ?_, ?_, ?_⟩
  · cases reserveRead <;> simp [aggregateReserveBalance]
  · intro rd hrd hzero
    subst hrd
    simp [aggregateReserveBalance, hzero]
  · intro e he
    subst he
    simp [aggregateReserveBalance]
  · intro e he
    subst he
    cases reserveRead with
    | error _ => simp [aggregateReserveBalance]
    | ok rd =>
      by_cases hz : rd.aTokenAddress = zeroAddress <;>
        simp [aggregateReserveBalance, hz]

/-- C8 witness: the invariant at a concrete reserve whose aToken address
is the zero sentinel. -/
theorem c8_balance_invariant_witness :
    (aggregateReserveBalance 5 (.ok ⟨zeroAddress⟩) (.ok 7)).total =
      (aggregateReserveBalance 5 (.ok ⟨zeroAddress⟩) (.ok 7)).wallet +
        (aggregateReserveBalance 5 (.ok ⟨zeroAddress⟩) (.ok 7)).deposited ∧
    (aggregateReserveBalance 5 (.ok ⟨zeroAddress⟩) (.ok 7)).deposited = 0 :=
  ⟨(c8_balance_invariant 5 (.ok ⟨zeroAddress⟩) (.ok 7)).1,
   (c8_balance_invariant 5 (.ok ⟨zeroAddress⟩) (.ok 7)).2.1 ⟨zeroAddress⟩ rfl rfl⟩

/-- A falsy (`undefined` or empty) optional string defaults under `||`. -/
theorem jsOrDefault_of_falsy (a : Option String) (h : truthy a = false) (d : String) :
    jsOrDefault a d = d := by
  cases a <;> simp_all [truthy, jsOrDefault]

/-- `loadConfig`'s local flag agrees with `isLocalNetwork()` on every
environment, despite the two different defaults (`'localhost'` vs
`'hardhat'`): both defaults are classified local. -/
theorem loadConfigIsLocal_eq_isLocalNetwork (env : Env) :
    loadConfigIsLocal env = isLocalNetwork env := by
  cases h : env.NETWORK with
  | none => simp [loadConfigIsLocal, loadConfigNetwork, isLocalNetwork, jsOrDefault, h]
  | some s =>
    by_cases hs : s = "" <;>
      simp [loadConfigIsLocal, loadConfigNetwork, isLocalNetwork, jsOrDefault, h, hs]

/-- C5 counterexample: with all three data-provider variables unset,
`loadConfig` does not fail — the data-provider role resolves to the empty
string, so "if neither is set, resolution fails" is false for that role. -/
theorem c5_dp_no_failure_counterexample :
    (envNoDataProvider.LOCAL_DATA_PROVIDER_ADDRESS = none ∧
      envNoDataProvider.SEPOLIA_DATA_PROVIDER_ADDRESS = none ∧
      envNoDataProvider.DATA_PROVIDER_ADDRESS = none) ∧
    loadConfigCommon envNoDataProvider = .ok cfgNoDataProvider :=
  ⟨⟨rfl, rfl, rfl⟩, rfl⟩

/-- C5 (amended): in the operation scripts' `loadConfig`, the
network-prefixed variable wins whenever it is set non-empty, only the
generic variable being set resolves to it, and a missing lending-pool or
token address fails with the message interpolating both the prefixed and
the generic variable name; the data-provider role instead degrades to the
empty string whenever its resolution comes up falsy. -/
theorem c5_address_resolution :
    (∀ lv sv gv p,
      (lv = some p → p ≠ "" → resolveRole true lv sv gv = some p) ∧
      (sv = some p → p ≠ "" → resolveRole false lv sv gv = some p)) ∧
    (∀ b gv, resolveRole b none none gv = gv) ∧
    (∀ env, truthy (resolveLendingPoolAddress env) = false →
      loadConfigCommon env = .error
        (mkMissingMsg (if loadConfigIsLocal env then "LOCAL_" else "SEPOLIA_")
          "LENDING_POOL_ADDRESS")) ∧
    (∀ env, truthy (resolveLendingPoolAddress env) = true →
      truthy (resolveTokenAddress env) = false →
      loadConfigCommon env = .error
        (mkMissingMsg (if loadConfigIsLocal env then "LOCAL_" else "SEPOLIA_")
          "TOKEN_ADDRESS")) ∧
    (∀ env c, loadConfigCommon env = .ok c →
      truthy (resolveDataProviderAddress env) = false →
      c.dataProviderAddress = "") := by
  refine ⟨?_, ?_, ?_, ?_, ?_⟩
  · intro lv sv gv p
    constructor
    · intro h hp
      subst h
      simp [resolveRole, jsOr, hp]
    · intro h hp
      subst h
      simp [resolveRole, jsOr, hp]
  · intro b gv
    cases b <;> simp [resolveRole, jsOr]
  · intro env h
    simp [loadConfigCommon, h]
  · intro env h1 h2
    simp [loadConfigCommon, h1, h2]
  · intro env c hc hdp
    simp only [loadConfigCommon] at hc
    split at hc
    · cases hc
    · split at hc
      · cases hc
      · cases hc
        simp [jsOrDefault_of_falsy _ hdp]

/-- C5 witness: the amended behavior at concrete environments — the
prefixed value wins, a missing pool fails naming both variable forms, and
the unset data-provider role resolves to the empty string. -/
theorem c5_address_resolution_witness :
    resolveRole true (some "L") (some "S") (some "G") = some "L" ∧
    loadConfigCommon envMissingPool =
      .error (mkMissingMsg "SEPOLIA_" "LENDING_POOL_ADDRESS") ∧
    cfgNoDataProvider.dataProviderAddress = "" :=
  ⟨(c5_address_resolution.1 (some "L") (some "S") (some "G") "L").1 rfl (by decide),
   c5_address_resolution.2.2.1 envMissingPool rfl,
   c5_address_resolution.2.2.2.2 envNoDataProvider cfgNoDataProvider rfl rfl⟩

/-- C9 counterexample: `NETWORK` set to the empty string is classified as
local although its value is neither `'hardhat'` nor `'localhost'` nor
unset — the `||`-default also fires on the empty string. -/
theorem c9_empty_network_counterexample :
    isLocalNetwork envEmptyNetwork = true ∧
    envEmptyNetwork.NETWORK ≠ none ∧
    envEmptyNetwork.NETWORK ≠ some "hardhat" ∧
    envEmptyNetwork.NETWORK ≠ some "localhost" := by
  refine ⟨rfl, ?_, ?_, ?_⟩ <;> simp [envEmptyNetwork, emptyEnv]

/-- C9 (amended): the network is classified local exactly when `NETWORK`
is `'hardhat'`, `'localhost'`, unset, or the empty string (the last two
fall back to a local default), and each address role reads its
`LOCAL_`-prefixed slot exactly in the local case and its
`SEPOLIA_`-prefixed slot in every other case — no other network name
selects a distinct prefix. -/
theorem c9_network_classification :
    (∀ env, isLocalNetwork env = true ↔
      (env.NETWORK = none ∨ env.NETWORK = some "" ∨
        env.NETWORK = some "hardhat" ∨ env.NETWORK = some "localhost")) ∧
    (∀ env, loadConfigIsLocal env = isLocalNetwork env) ∧
    (∀ env, resolveTokenAddress env =
      if isLocalNetwork env then jsOr env.LOCAL_TOKEN_ADDRESS env.TOKEN_ADDRESS
      else jsOr env.SEPOLIA_TOKEN_ADDRESS env.TOKEN_ADDRESS) ∧
    (∀ env, resolveLendingPoolAddress env =
      if isLocalNetwork env then
        jsOr env.LOCAL_LENDING_POOL_ADDRESS env.LENDING_POOL_ADDRESS
      else jsOr env.SEPOLIA_LENDING_POOL_ADDRESS env.LENDING_POOL_ADDRESS) ∧
    (∀ env, resolveDataProviderAddress env =
      if isLocalNetwork env then
        jsOr env.LOCAL_DATA_PROVIDER_ADDRESS env.DATA_PROVIDER_ADDRESS
      else jsOr env.SEPOLIA_DATA_PROVIDER_ADDRESS env.DATA_PROVIDER_ADDRESS) := by
  refine ⟨?_, loadConfigIsLocal_eq_isLocalNetwork, ?_, ?_, ?_⟩
  · intro env
    cases h : env.NETWORK with
    | none => simp [isLocalNetwork, jsOrDefault, h]
    | some s =>
      by_cases hs : s = "" <;>
        simp [isLocalNetwork, jsOrDefault, h, hs]
  · intro env
    simp [resolveTokenAddress, resolveRole, loadConfigIsLocal_eq_isLocalNetwork]
  · intro env
    simp [resolveLendingPoolAddress, resolveRole, loadConfigIsLocal_eq_isLocalNetwork]
  · intro env
    simp [resolveDataProviderAddress, resolveRole, loadConfigIsLocal_eq_isLocalNetwork]

/-- C6: each operation's nested-`if` error handler is exactly first-match
substring classification against its fixed table of known protocol error
codes; a message matching no table entry classifies as `unrecognized`;
and in every case the handler's printed output carries the original raw
message (classification augments, never replaces it). -/
theorem c6_error_classification :
    (∀ msg, classifyBorrowError msg = classifyAgainst borrowErrorTable msg) ∧
    (∀ msg, classifyRepayError msg = classifyAgainst repayErrorTable msg) ∧
    (∀ msg, classifyWithdrawError msg = classifyAgainst withdrawErrorTable msg) ∧
    (∀ msg, (∀ p ∈ borrowErrorTable, strContains msg p.1 = false) →
      classifyBorrowError msg = ErrorKind.unrecognized) ∧
    (∀ msg, ("Error: " ++ msg) ∈ borrowFailureOutput msg) ∧
    (∀ msg, ("Error: " ++ msg) ∈ repayFailureOutput msg) ∧
    (∀ msg, ("Error: " ++ msg) ∈ withdrawFailureOutput msg) := by
  refine ⟨fun msg => rfl, fun msg => rfl, fun msg => rfl, ?_, ?_, ?_, ?_⟩
  · intro msg h
    have h1 := h ("1", ErrorKind.invalidCollateral) (by simp [borrowErrorTable])
    have h3 := h ("3", ErrorKind.invalidAmount) (by simp [borrowErrorTable])
    have h11 := h ("11", ErrorKind.collateralCannotCover) (by simp [borrowErrorTable])
    have h64 := h ("64", ErrorKind.paused) (by simp [borrowErrorTable])
    simp only at h1 h3 h11 h64
    simp [classifyBorrowError, h1, h3, h11, h64]
  · intro msg
    simp [borrowFailureOutput]
  · intro msg
    simp [repayFailureOutput]
  · intro msg
    simp [withdrawFailureOutput]

/-- C6 witness: a message containing none of the table codes classifies as
unrecognized, agrees with the table lookup, and is still printed raw. -/
theorem c6_error_classification_witness :
    classifyBorrowError "zzz" = classifyAgainst borrowErrorTable "zzz" ∧
    classifyBorrowError "zzz" = ErrorKind.unrecognized ∧
    ("Error: " ++ "zzz") ∈ borrowFailureOutput "zzz" :=
  ⟨c6_error_classification.1 "zzz",
   c6_error_classification.2.2.2.1 "zzz" (by decide),
   c6_error_classification.2.2.2.2.1 "zzz"⟩

/-- C7: the shared `.then`/`.catch` runner exits 0 exactly on a normal
completion, and any thrown (unhandled) failure exits 1 after the
top-level `catch` prints the error message; in particular a resolution
failure in `loadConfig` of the supply script propagates to exit code 1
with its structured message printed. -/
theorem c7_exit_convention :
    (∀ r, ((runScript r).exitCode = 0 ↔ ∃ txs, r = ScriptResult.ok txs) ∧
      (∀ msg txs, r = ScriptResult.thrown msg txs →
        (runScript r).exitCode = 1 ∧
          ("\n❌ Error: " ++ msg) ∈ (runScript r).errorOutput)) ∧
    (∀ env chain msg, loadConfigSupply env = .error msg →
      runScript (supplyMain env chain) =
        { exitCode := 1, errorOutput := ["\n❌ Error: " ++ msg] }) := by
  constructor
  · intro r
    constructor
    · cases r <;> simp [runScript]
    · intro msg txs h
      subst h
      simp [runScript]
  · intro env chain msg h
    simp [supplyMain, h, runScript]

/-- C7 witness: a thrown run exits 1, and the supply script with an empty
environment (missing pool variable) exits 1 printing the missing-variable
message. -/
theorem c7_exit_convention_witness :
    (runScript (ScriptResult.thrown "boom" [])).exitCode = 1 ∧
    runScript (supplyMain emptyEnv chainPlainSupply) =
      { exitCode := 1,
        errorOutput :=
          ["\n❌ Error: " ++ mkMissingMsg "LOCAL_" "LENDING_POOL_ADDRESS"] } :=
  ⟨((c7_exit_convention.1 (ScriptResult.thrown "boom" [])).2 "boom" [] rfl).1,
   c7_exit_convention.2 emptyEnv chainPlainSupply
     (mkMissingMsg "LOCAL_" "LENDING_POOL_ADDRESS") rfl⟩

/-- `parseUnits('0', d)` is 0 for every decimals value. -/
theorem parseUnitsNat_zero (d : Nat) : parseUnitsNat "0" d = 0 := by
  simp [parseUnitsNat, show parseDecNat "0" = some 0 from rfl]

/-- C2 counterexample: the supply script with requested amount `'0'` is
not rejected by any local validation — it submits `approve(0)` and
`deposit(0)` to the network and completes normally. -/
theorem c2_zero_supply_counterexample :
    supplyMain envSupplyZero chainSupplyZero =
      ScriptResult.ok [Tx.approve 0, Tx.deposit 0] := rfl

/-- C2 (amended): for withdraw and repay a requested amount of `'0'` or
`''` resolves to the `MaxUint256` full-amount sentinel and any other
amount is parsed literally; for supply and borrow a requested amount of
`'0'` is not rejected locally — it is parsed to 0 and passed through in
the submitted `approve`/`deposit` (resp. `borrow`) calls, rejection being
left to the protocol. -/
theorem c2_amount_sentinel :
    (∀ dec, resolveRepayAmount "0" dec = maxUint256 ∧
      resolveRepayAmount "" dec = maxUint256 ∧
      resolveWithdrawAmount "0" dec = maxUint256 ∧
      resolveWithdrawAmount "" dec = maxUint256) ∧
    (∀ s dec, s ≠ "0" → s ≠ "" →
      resolveRepayAmount s dec = parseUnitsNat s dec ∧
      resolveWithdrawAmount s dec = parseUnitsNat s dec) ∧
    (∀ env chain config, loadConfigSupply env = .ok config →
      config.supplyAmount = "0" →
      signersGate (isLocalNetwork env) chain.signersCount = none →
      Tx.approve 0 ∈ txsOf (supplyMain env chain)) ∧
    (∀ env chain config, loadConfigBorrow env = .ok config →
      config.borrowAmount = "0" →
      config.dataProviderAddress = "" →
      signersGate (isLocalNetwork env) chain.signersCount = none →
      Tx.borrow 0 config.interestRateMode ∈ txsOf (borrowMain env chain)) := by
  refine ⟨?_, ?_, ?_, ?_⟩
  · intro dec
    refine ⟨?_, ?_, ?_, ?_⟩ <;> simp [resolveRepayAmount, resolveWithdrawAmount]
  · intro s dec h0 he
    constructor <;> simp [resolveRepayAmount, resolveWithdrawAmount, h0, he]
  · intro env chain config hcfg hamt hsig
    simp only [supplyMain, hcfg, hsig]
    rw [hamt, parseUnitsNat_zero]
    rw [if_pos (Nat.zero_le _)]
    cases chain.approveResult <;> cases chain.depositResult <;> simp [txsOf]
  · intro env chain config hcfg hamt hdp hsig
    simp only [borrowMain, hcfg, hsig]
    rw [hamt, hdp, parseUnitsNat_zero]
    cases chain.borrowResult <;> simp [txsOf]

/-- C2 witness: the amended convention at concrete inputs — repay '0' and
withdraw '' resolve to the sentinel, repay '5' parses literally, and the
zero-amount supply and borrow runs submit their network calls. -/
theorem c2_amount_sentinel_witness :
    resolveRepayAmount "0" 18 = maxUint256 ∧
    resolveWithdrawAmount "" 18 = maxUint256 ∧
    resolveRepayAmount "5" 18 = parseUnitsNat "5" 18 ∧
    Tx.approve 0 ∈ txsOf (supplyMain envSupplyZero chainSupplyZero) ∧
    Tx.borrow 0 2 ∈ txsOf (borrowMain envBorrowZero chainBorrowZero) :=
  ⟨(c2_amount_sentinel.1 18).1,
   (c2_amount_sentinel.1 18).2.2.2,
   (c2_amount_sentinel.2.1 "5" 18 (by decide) (by decide)).1,
   c2_amount_sentinel.2.2.1 envSupplyZero chainSupplyZero cfgSupplyZero rfl rfl rfl,
   c2_amount_sentinel.2.2.2 envBorrowZero chainBorrowZero cfgBorrowZero rfl rfl rfl rfl⟩

/-- C3 counterexample: against a reserve whose configuration word has bits
56 and 57 both clear (decoded inactive, not frozen), the orchestrated
supply does not fail during validation — it submits both `approve` and
`deposit` and completes normally. -/
theorem c3_inactive_deposit_counterexample :
    decodeReserveConfig chainInactiveReserve.configWord =
      { isActive := false, isFrozen := false } ∧
    supplyMain envSupply100 chainInactiveReserve =
      ScriptResult.ok [Tx.approve (100 * 10 ^ 18), Tx.deposit (100 * 10 ^ 18)] :=
  ⟨rfl, rfl⟩

/-- C3 (amended): the standalone configuration checker reports a reserve
whose decoded word is inactive (with a non-zero aToken address) as
`reserveInactive`, but the supply script performs no reserve-status
validation: its behavior is independent of the configuration word, and it
submits the `deposit` call whenever the balance check passes. -/
theorem c3_supply_no_validation :
    (∀ word isPoolPaused aAddr, (decodeReserveConfig word).isActive = false →
      aAddr ≠ zeroAddress →
      checkReserveVerdict aAddr word isPoolPaused = ConfigVerdict.reserveInactive) ∧
    (∀ env chain w,
      supplyMain env { chain with configWord := w } = supplyMain env chain) ∧
    (∀ env chain config, loadConfigSupply env = .ok config →
      signersGate (isLocalNetwork env) chain.signersCount = none →
      chain.userBalance ≥ parseUnitsNat config.supplyAmount config.tokenDecimals →
      chain.approveResult = .ok () →
      Tx.deposit (parseUnitsNat config.supplyAmount config.tokenDecimals) ∈
        txsOf (supplyMain env chain)) := by
  refine ⟨?_, ?_, ?_⟩
  · intro word isPoolPaused aAddr h1 h2
    simp [checkReserveVerdict, h1, h2]
  · intro env chain w
    rfl
  · intro env chain config hcfg hsig hbal happ
    simp only [supplyMain, hcfg, hsig]
    rw [if_pos hbal, happ]
    cases chain.depositResult <;> simp [txsOf]

/-- C3 witness: the amended statement at a concrete inactive word and the
concrete supply run that submits its deposit. -/
theorem c3_supply_no_validation_witness :
    checkReserveVerdict "0xAToken" 0 false = ConfigVerdict.reserveInactive ∧
    supplyMain envSupply100 { chainInactiveReserve with configWord := 77 } =
      supplyMain envSupply100 chainInactiveReserve ∧
    Tx.deposit (parseUnitsNat "100" 18) ∈
      txsOf (supplyMain envSupply100 chainInactiveReserve) :=
  ⟨c3_supply_no_validation.1 0 false "0xAToken" rfl (by decide),
   c3_supply_no_validation.2.1 envSupply100 chainInactiveReserve 77,
   c3_supply_no_validation.2.2 envSupply100 chainInactiveReserve cfgSupply100
     rfl rfl (by decide) rfl⟩

/-- C10 counterexample: with the data provider configured but its
user-reserve read failing, the repay script proceeds past the zero-debt
guard and submits `approve` and `repay` although the user's total debt is
zero — transactions are submitted and on-chain allowance state changes. -/
theorem c10_read_failure_counterexample :
    loadConfigRepay envRepayDP = .ok cfgRepayDP ∧
    cfgRepayDP.dataProviderAddress ≠ "" ∧
    chainZeroDebtReadFails.currentStableDebt +
      chainZeroDebtReadFails.currentVariableDebt = 0 ∧
    repayMain envRepayDP chainZeroDebtReadFails =
      ScriptResult.ok [Tx.approve maxUint256, Tx.repay maxUint256 2] :=
  ⟨rfl, by decide, rfl, rfl⟩

/-- C10 (amended): when the data provider is configured and its
user-reserve read succeeds, a repay against zero total debt or zero debt
in the selected rate mode submits no transaction; a withdraw against a
zero deposited (aToken) balance submits no transaction unconditionally. -/
theorem c10_zero_position_guards :
    (∀ env chain config, loadConfigRepay env = .ok config →
      config.dataProviderAddress ≠ "" →
      chain.userReserveReadOk = true →
      (chain.currentStableDebt + chain.currentVariableDebt = 0 ∨
        (if config.interestRateMode = 1 then chain.currentStableDebt
         else chain.currentVariableDebt) = 0) →
      txsOf (repayMain env chain) = []) ∧
    (∀ env chain, chain.aTokenBalance = 0 →
      txsOf (withdrawMain env chain) = []) := by
  constructor
  · intro env chain config hcfg hdp hread hz
    simp only [repayMain, hcfg]
    cases hs : signersGate (isLocalNetwork env) chain.signersCount with
    | some m => simp [txsOf]
    | none =>
      rw [if_pos ⟨hdp, hread, hz⟩]
      simp [txsOf]
  · intro env chain h
    cases hc : loadConfigWithdraw env with
    | error m => simp [withdrawMain, hc, txsOf]
    | ok config =>
      simp only [withdrawMain, hc]
      cases hs : signersGate (isLocalNetwork env) chain.signersCount with
      | some m => simp [txsOf]
      | none =>
        rw [if_pos h]
        simp [txsOf]

/-- C10 witness: the guards at the concrete zero-debt (read succeeding)
repay run and the concrete zero-deposit withdraw run. -/
theorem c10_zero_position_guards_witness :
    txsOf (repayMain envRepayDP chainZeroDebtReadOk) = [] ∧
    txsOf (withdrawMain envRepayDP chainNoDeposit) = [] :=
  ⟨c10_zero_position_guards.1 envRepayDP chainZeroDebtReadOk cfgRepayDP rfl
     (by decide) rfl (Or.inl rfl),
   c10_zero_position_guards.2 envRepayDP chainNoDeposit rfl⟩
